import Mathlib

/-!
Verification development for the query-resolution pipeline of the
`ai_data_analysis_agent` repository.

The embedding below translates the two core modules:

* `src/data_processor.py` — the `DataProcessor` class wrapping a pandas
  dataframe (column info, missing-data report, correlation, filtering,
  grouping);
* `src/query_processor.py` — the `QueryProcessor` class (tier-1 pattern
  matching in `_process_simple_query`, tier-2 AI path in
  `_process_ai_query` / `_execute_pandas_code`, orchestration in
  `process_query`).

Dataframes are modelled row-major: a list of column descriptors plus a
list of rows, where a row is a positional list of optional cells (a
`none` cell is a pandas null/NaN).  Numeric cell values are rationals;
pandas float arithmetic is modelled exactly over `ℚ`, and numpy's
`.round(2)` (half-to-even) is modelled as exact half-to-even rounding of
rationals.  External effects (the OpenAI chat call, and the runtime
behaviour of `exec` on a synthesized fragment) are passed in as explicit
oracle values, while all of the repository's own control flow — branch
order, result variable lookup, and the `except Exception` handlers
(which convert `Exception`-level faults into result dictionaries but do
not catch a `BaseException` such as `SystemExit`) — is translated
directly from the source.  Pandas range comparisons likewise keep their
raise behaviour: an ordering mask over a text cell is a `TypeError`, not
an empty selection.
-/

/-! ### String helpers

Python's `needle in haystack` substring test, `str.split`, and the
`re`-based digit extraction used by the source, modelled over `List Char`.
-/

/-- Prefix test: `isPrefixL needle hay` is true when `needle` is a prefix of `hay`. -/
def isPrefixL : List Char → List Char → Bool
  | [], _ => true
  | _ :: _, [] => false
  | a :: as, b :: bs => a == b && isPrefixL as bs

/-- Substring test `hasSubstr needle hay`: Python's `needle in hay` substring containment. -/
def hasSubstr : List Char → List Char → Bool
  | needle, [] => isPrefixL needle []
  | needle, c :: rest => isPrefixL needle (c :: rest) || hasSubstr needle rest

/-- Substring containment on `String`, i.e. Python's `sub in s`. -/
def strContains (s sub : String) : Bool :=
  hasSubstr sub.data s.data

/-- Split `hay` at the first occurrence of `sep`: returns the part before
the occurrence and the part after it.  `none` when `sep` does not occur.
Used to model the first (non-greedy) regex match in
`_extract_code_from_response`. -/
def findSplit (sep : List Char) : List Char → Option (List Char × List Char)
  | [] => if sep.isEmpty then some ([], []) else none
  | c :: rest =>
    if isPrefixL sep (c :: rest) then
      some ([], (c :: rest).drop sep.length)
    else
      match findSplit sep rest with
      | some (pre, post) => some (c :: pre, post)
      | none => none

/-- Value of a digit character. -/
def digitVal (c : Char) : Nat := c.toNat - '0'.toNat

/-- Decimal value of a digit run (`int` applied to a digit string). -/
def digitsToNat (ds : List Char) : Nat :=
  ds.foldl (fun acc c => acc * 10 + digitVal c) 0

/-- The first maximal run of decimal digits in `cs`, i.e. the first match
of the regex `\d+` in `re.findall(r'\d+', text)`. -/
def firstDigitRun : List Char → Option (List Char)
  | [] => none
  | c :: rest =>
    if c.isDigit then some (c :: rest.takeWhile Char.isDigit)
    else firstDigitRun rest

/-- Source method `QueryProcessor._extract_number`: first integer literal in the text,
or the default when the text contains no digits. -/
def extract_number (text : String) (default : Nat) : Nat :=
  match firstDigitRun text.data with
  | some ds => digitsToNat ds
  | none => default

/-- Insert a thousands separator every three digits from the right, as
Python's `f'{count:,}'` format does for a nonnegative integer. -/
def commaGroup (ds : List Char) : List Char :=
  if h : ds.length ≤ 3 then ds
  else
    have : ds.length - 3 < ds.length := by omega
    commaGroup (ds.take (ds.length - 3)) ++ (',' :: ds.drop (ds.length - 3))
termination_by ds.length
decreasing_by
  simpa [List.length_take] using by omega

/-- Python's `f'{n:,}'` for a natural number. -/
def formatWithCommas (n : Nat) : String :=
  String.mk (commaGroup (Nat.repr n).data)

/-- Python `str.lower()` over the characters of the string (the rule
keywords and every query a claim mentions are ASCII, where `Char.toLower`
agrees with Python's lowercasing). -/
def lowerStr (s : String) : String :=
  String.mk (s.data.map Char.toLower)

/-- Strip whitespace from both ends of a character list. -/
def trimChars (cs : List Char) : List Char :=
  ((cs.dropWhile Char.isWhitespace).reverse.dropWhile Char.isWhitespace).reverse

/-- Python `str.strip()`. -/
def stripStr (s : String) : String :=
  String.mk (trimChars s.data)

/-- Python `query.lower().strip()`, the normalization applied by
`_process_simple_query`. -/
def normalizeQuery (query : String) : String :=
  stripStr (lowerStr query)

/-- Python `str.split('\n')`. -/
def splitLinesL : List Char → List (List Char)
  | [] => [[]]
  | c :: rest =>
    let r := splitLinesL rest
    if c = '\n' then [] :: r
    else
      match r with
      | [] => [[c]]
      | l :: ls => (c :: l) :: ls

/-- Python `'\n'.join(...)`. -/
def joinLinesL : List (List Char) → List Char
  | [] => []
  | [l] => l
  | l :: ls => l ++ '\n' :: joinLinesL ls

/-! ### Tabular data model

A dataframe is a list of column descriptors plus row-major data.  A cell
is `Option Val`; `none` is a pandas null (NaN/None).  `Column.numeric`
records whether the column has a numeric dtype (what
`select_dtypes(include=[np.number])` keeps). -/

/-- A cell value: numeric (rational) or text. -/
inductive Val where
  | num : ℚ → Val
  | str : String → Val
deriving DecidableEq

/-- Column descriptor: name and whether the dtype is numeric. -/
structure Column where
  name : String
  numeric : Bool
deriving DecidableEq

/-- A row: positional list of optional cells, aligned with the column list. -/
abbrev Row := List (Option Val)

/-- A pandas dataframe: ordered columns and row-major cells. -/
structure DataFrame where
  cols : List Column
  rows : List Row
deriving DecidableEq

/-- Cell of row `r` in column position `i` (missing positions read as null). -/
def cellAt (r : Row) (i : Nat) : Option Val :=
  (r.get? i).getD none

/-- All cells of the column at position `i`, top to bottom. -/
def cellsAt (df : DataFrame) (i : Nat) : List (Option Val) :=
  df.rows.map (fun r => cellAt r i)

/-- Position of the column named `name`, i.e. membership in `df.columns`
(`none` when the dataframe has no such column). -/
def colIdx? (df : DataFrame) (name : String) : Option Nat :=
  df.cols.findIdx? (fun c => c.name == name)

/-- Cells of the (first) column named `name`; `[]` when absent. -/
def colCells (df : DataFrame) (name : String) : List (Option Val) :=
  match colIdx? df name with
  | some i => cellsAt df i
  | none => []

/-- Names of the columns, `df.columns.tolist()`. -/
def colNames (df : DataFrame) : List String :=
  df.cols.map Column.name

/-- Names of numeric columns, the index of
`df.select_dtypes(include=[np.number])`. -/
def numericColNames (df : DataFrame) : List String :=
  (df.cols.filter Column.numeric).map Column.name

/-- Number of nulls among the given cells (`isnull().sum()` for one column). -/
def nullCount (cells : List (Option Val)) : Nat :=
  (cells.filter Option.isNone).length

/-- Number of non-null cells (`Series.count()`). -/
def nonNullCount (cells : List (Option Val)) : Nat :=
  (cells.filterMap id).length

/-- Number of distinct non-null values (`Series.nunique()`). -/
def nuniqueCount (cells : List (Option Val)) : Nat :=
  (cells.filterMap id).dedup.length

/-- Pandas `df.head(n)`: the first `n` rows, in original order. -/
def dfHead (df : DataFrame) (n : Nat) : DataFrame :=
  { df with rows := df.rows.take n }

/-! ### `DataProcessor` (src/data_processor.py)

`DataProcessor.__init__` stores `dataframe.copy()` in `self.df` (plus a
second copy in `self.original_df`); no method of the class ever assigns
to `self.df`, which the state-passing embedding below makes explicit. -/

/-- Numpy/pandas `.round(...)` rounds a tie half-to-even. `roundHalfEven q`
is the integer nearest to `q`, ties going to the even integer. -/
def roundHalfEven (q : ℚ) : ℤ :=
  let f := Int.floor q
  let frac := q - f
  if frac < 1/2 then f
  else if 1/2 < frac then f + 1
  else if f % 2 = 0 then f else f + 1

/-- Numpy `x.round(2)`: round to two decimal places, half-to-even. -/
def round2 (q : ℚ) : ℚ :=
  (roundHalfEven (q * 100) : ℚ) / 100

/-- One row of the `get_column_info()` table.  The claim-relevant fields
(name, non-null / null / unique counts) are modelled; the per-column
memory estimate and the numeric min/max/mean extras (float-valued,
inspected by no claim) are omitted from the record. -/
structure ColInfoRow where
  column : String
  nonNull : Nat
  nulls : Nat
  unique : Nat
deriving DecidableEq

/-- Source method `DataProcessor.get_column_info`: one record per column, in column
order, with the per-column counts. -/
def get_column_info (df : DataFrame) : List ColInfoRow :=
  (List.range df.cols.length).map (fun i =>
    { column := ((df.cols.get? i).map Column.name).getD ""
      nonNull := nonNullCount (cellsAt df i)
      nulls := nullCount (cellsAt df i)
      unique := nuniqueCount (cellsAt df i) })

/-- One row of the `analyze_missing_data()` table. -/
structure MissingRow where
  column : String
  count : Nat
  pct : ℚ
deriving DecidableEq

/-- Per-column null counts in column order: `df.isnull().sum()` as an
association list from column name to count. -/
def colNullCounts (df : DataFrame) : List (String × Nat) :=
  (List.range df.cols.length).map (fun i =>
    (((df.cols.get? i).map Column.name).getD "", nullCount (cellsAt df i)))

/-- Source method `DataProcessor.analyze_missing_data`: keep the columns with at least
one null; empty table when there are none; otherwise one row per such
column with its count and `(count / len(df) * 100).round(2)`, sorted by
descending missing count (`sort_values('Missing Count', ascending=False)`;
pandas' quicksort is unstable, so only the descending order — not the
placement of ties — is meaningful, and any descending arrangement is a
faithful model). -/
def analyze_missing_data (df : DataFrame) : List MissingRow :=
  let positive := (colNullCounts df).filter (fun p => 0 < p.2)
  if positive.isEmpty then []
  else
    List.insertionSort (fun a b => b.count ≤ a.count)
      (positive.map (fun p =>
        { column := p.1
          count := p.2
          pct := round2 ((p.2 : ℚ) / (df.rows.length : ℚ) * 100) }))

/-- The correlation table returned by `numeric_df.corr()`.  Its index and
columns are the numeric columns of the dataframe; the Pearson
coefficients themselves are irrational floats that no claim inspects, so
only the label structure is recorded.  `DataFrame.corr` is total in
pandas — for zero or one numeric column it returns an empty or 1×1 table
rather than raising. -/
structure CorrTable where
  labels : List String
deriving DecidableEq

/-- Source method `DataProcessor.correlation_analysis`:
`self.df.select_dtypes(include=[np.number]).corr()`. -/
def correlation_analysis (df : DataFrame) : CorrTable :=
  { labels := numericColNames df }

/-- A single filter condition, the value side of the `conditions` dict of
`DataProcessor.filter_data`: a `{min?, max?}` range dict, a list of
allowed values, or one exact value.  Range bounds are numeric, as in
every use the spec describes. -/
inductive Cond where
  | range (lo hi : Option ℚ)
  | inList (vs : List Val)
  | eqVal (v : Val)
deriving DecidableEq

/-- Comparison `cell >= bound` of one cell against a numeric bound, with
pandas raise behaviour: a numeric cell compares, a null never matches
(`NaN >= a` is `False` in a numeric column), and a text cell raises
`TypeError` — an ordering comparison between `str` and a number is not
defined (the message stands in for CPython's, whose exact wording is not
load-bearing).  Pandas nulls in a numeric-dtype column are `NaN`, which
is the case every claim exercises; a Python `None` inside an
object-dtype column would also raise, which is outside every theorem's
scope below (their hypotheses require a numeric-dtype column). -/
def cellGeE (cell : Option Val) (bound : ℚ) : Except String Bool :=
  match cell with
  | some (.num q) => .ok (bound ≤ q)
  | none => .ok false
  | some (.str _) => .error "TypeError: ordering comparison of str with numeric"

/-- Comparison `cell <= bound` against a numeric bound, with the same
raise behaviour as `cellGeE`. -/
def cellLeE (cell : Option Val) (bound : ℚ) : Except String Bool :=
  match cell with
  | some (.num q) => .ok (q ≤ bound)
  | none => .ok false
  | some (.str _) => .error "TypeError: ordering comparison of str with numeric"

/-- The value of `cellGeE` on a cell where it does not raise (a numeric
or null cell); used only to express filtered results on columns whose
cells all satisfy that side condition. -/
def cellGe (cell : Option Val) (bound : ℚ) : Bool :=
  match cell with
  | some (.num q) => bound ≤ q
  | _ => false

/-- The value of `cellLeE` on a cell where it does not raise. -/
def cellLe (cell : Option Val) (bound : ℚ) : Bool :=
  match cell with
  | some (.num q) => q ≤ bound
  | _ => false

/-- Does a cell belong to a numeric-or-null column slice (where the
range comparisons cannot raise)? -/
def numericCell : Option Val → Bool
  | some (.str _) => false
  | _ => true

/-- Filter a row list by a boolean mask whose entries may raise: the
first raising entry aborts the whole selection, as computing
`series >= bound` raises before any row is returned. -/
def filterE (p : Row → Except String Bool) : List Row → Except String (List Row)
  | [] => .ok []
  | r :: rs =>
    match p r with
    | .error e => .error e
    | .ok b =>
      match filterE p rs with
      | .error e => .error e
      | .ok rest => .ok (if b then r :: rest else rest)

/-- Apply one condition to the rows, reading the cell at column position
`i`: the successive boolean-mask selections of the body of
`filter_data`.  A range bound builds an ordering mask that can raise;
`isin` and `==` masks are equality-based and never raise in pandas. -/
def applyCond (rows : List Row) (i : Nat) : Cond → Except String (List Row)
  | .range lo hi =>
    match (match lo with
           | some a => filterE (fun r => cellGeE (cellAt r i) a) rows
           | none => .ok rows) with
    | .error e => .error e
    | .ok afterMin =>
      match hi with
      | some b => filterE (fun r => cellLeE (cellAt r i) b) afterMin
      | none => .ok afterMin
  | .inList vs => .ok (rows.filter (fun r =>
      match cellAt r i with
      | some v => vs.contains v
      | none => false))
  | .eqVal v => .ok (rows.filter (fun r => cellAt r i == some v))

/-- The `for column, condition in conditions.items()` loop of
`filter_data`: conditions are applied in order, a condition whose key is
not in `filtered_df.columns` is skipped (row filtering never changes the
column list, so the membership test is against the original columns),
and a raise from any mask aborts the loop and propagates. -/
def applyCondsE (df : DataFrame) : List (String × Cond) → List Row → Except String (List Row)
  | [], rows => .ok rows
  | c :: cs, rows =>
    match (match colIdx? df c.1 with
           | some i => applyCond rows i c.2
           | none => .ok rows) with
    | .ok rows2 => applyCondsE df cs rows2
    | .error e => .error e

/-- Source method `DataProcessor.filter_data`: fold the conditions in
order over a copy of the rows; the result is the filtered frame, or the
`TypeError` raised by an ill-typed range comparison. -/
def filter_data (df : DataFrame) (conditions : List (String × Cond)) :
    Except String DataFrame :=
  match applyCondsE df conditions df.rows with
  | .ok rows => .ok { df with rows := rows }
  | .error e => .error e

/-- Aggregation function name accepted by `group_analysis`. -/
inductive AggFn where
  | mean | sum | count | min | max | median
deriving DecidableEq

/-- Median of an unsorted list of rationals, pandas style: middle element
of the sorted list, or the average of the two middles for even length. -/
def medianQ (xs : List ℚ) : ℚ :=
  let s := List.insertionSort (· ≤ ·) xs
  if s.length = 0 then 0
  else if s.length % 2 = 1 then (s.get? (s.length / 2)).getD 0
  else (((s.get? (s.length / 2 - 1)).getD 0) + ((s.get? (s.length / 2)).getD 0)) / 2

/-- Apply an aggregation to the non-null numeric values of one group
(pandas aggregations skip nulls). -/
def aggregate : AggFn → List ℚ → ℚ
  | .mean, xs => if xs.length = 0 then 0 else xs.sum / xs.length
  | .sum, xs => xs.sum
  | .count, xs => xs.length
  | .min, xs => xs.foldr Min.min (xs.headD 0)
  | .max, xs => xs.foldr Max.max (xs.headD 0)
  | .median, xs => medianQ xs

/-- A total order on cell values used to model pandas' sorted group keys:
numeric before text, each kind by its own order.  Grouping keys of mixed
kind do not occur in any claim. -/
def valLeTotal : Val → Val → Bool
  | .num a, .num b => a ≤ b
  | .num _, .str _ => true
  | .str _, .num _ => false
  | .str a, .str b => a ≤ b

/-- The numeric values of `aggCells` in the rows whose `groupCells` cell
equals `key`. -/
def groupValues (groupCells aggCells : List (Option Val)) (key : Val) : List ℚ :=
  ((groupCells.zip aggCells).filterMap (fun p =>
    if p.1 = some key then
      match p.2 with
      | some (.num q) => some q
      | _ => none
    else none))

/-- Source method `DataProcessor.group_analysis`: raises `ValueError` when either column
is absent; otherwise `df.groupby(group_by_col)[agg_col].agg(agg_func)
.reset_index()` — one row per distinct non-null group key (groupby drops
null keys and sorts the keys), with the aggregated value. -/
def group_analysis (df : DataFrame) (group_by_col agg_col : String)
    (agg_func : AggFn) : Except String (List (Val × ℚ)) :=
  match colIdx? df group_by_col, colIdx? df agg_col with
  | some gi, some ai =>
    let keys := List.insertionSort (fun a b => valLeTotal a b = true)
      ((cellsAt df gi).filterMap id).dedup
    .ok (keys.map (fun k =>
      (k, aggregate agg_func (groupValues (cellsAt df gi) (cellsAt df ai) k))))
  | _, _ => .error "Specified columns not found in dataframe"

/-- The mutable state of a `DataProcessor` instance: its `self.df` and
`self.original_df` attributes. -/
structure DataProcessorState where
  df : DataFrame
  original_df : DataFrame
deriving DecidableEq

/-- Source method `DataProcessor.__init__`: both attributes are copies of the argument. -/
def DataProcessor.init (dataframe : DataFrame) : DataProcessorState :=
  { df := dataframe, original_df := dataframe }

/-- Method `get_column_info` as a state transformer: the method reads `self.df`
and assigns to no attribute. -/
def get_column_info_op (s : DataProcessorState) :
    List ColInfoRow × DataProcessorState :=
  (get_column_info s.df, s)

/-- Method `analyze_missing_data` as a state transformer. -/
def analyze_missing_data_op (s : DataProcessorState) :
    List MissingRow × DataProcessorState :=
  (analyze_missing_data s.df, s)

/-- Method `correlation_analysis` as a state transformer. -/
def correlation_analysis_op (s : DataProcessorState) :
    CorrTable × DataProcessorState :=
  (correlation_analysis s.df, s)

/-- Method `filter_data` as a state transformer: the body filters a copy
(`filtered_df = self.df.copy()`) and returns it; `self.df` is untouched. -/
def filter_data_op (s : DataProcessorState) (conditions : List (String × Cond)) :
    Except String DataFrame × DataProcessorState :=
  (filter_data s.df conditions, s)

/-- Method `group_analysis` as a state transformer. -/
def group_analysis_op (s : DataProcessorState) (group_by_col agg_col : String)
    (agg_func : AggFn) : Except String (List (Val × ℚ)) × DataProcessorState :=
  (group_analysis s.df group_by_col agg_col agg_func, s)

/-! ### `QueryProcessor` (src/query_processor.py) -/

/-- The `data` payload of a result dictionary, a tagged version of the
source's dynamically typed value. -/
inductive QueryData where
  | table (df : DataFrame)
  | colInfo (rows : List ColInfoRow)
  | describeTable (numericCols : List String)
  | text (s : String)
  | names (cols : List String)
  | missing (rows : List MissingRow)
  | corr (t : CorrTable)
deriving DecidableEq

/-- The result dictionary produced by every `QueryProcessor` path; each
optional field is present exactly when the corresponding Python dict key
is. -/
structure QueryResult where
  success : Bool
  data : Option QueryData
  explanation : Option String
  code : Option String
  error : Option String
deriving DecidableEq

/-- Source method `QueryProcessor._process_simple_query`: normalize the query
(`query.lower().strip()`), then test the seven keyword rules in source
order, first match wins; the final branch is the `'Query not recognized'`
miss marker.  The `data` of the statistics rule is `self.df.describe()`,
recorded by its numeric-column labels (its float statistics are inspected
by no claim). -/
def process_simple_query (df : DataFrame) (query : String) : QueryResult :=
  let ql := normalizeQuery query
  if strContains ql "top" &&
      (strContains ql "rows" || strContains ql "records" || strContains ql "entries") then
    let n := extract_number query 10
    { success := true
      data := some (.table (dfHead df n))
      explanation := some ("Showing top " ++ toString n ++ " rows from the dataset")
      code := some ("df.head(" ++ toString n ++ ")")
      error := none }
  else if strContains ql "info" || strContains ql "information" ||
      strContains ql "overview" || strContains ql "summary" then
    { success := true
      data := some (.colInfo (get_column_info df))
      explanation := some "Dataset overview and column information"
      code := some "df.info()"
      error := none }
  else if strContains ql "statistics" || strContains ql "stats" ||
      strContains ql "describe" || strContains ql "summary" then
    { success := true
      data := some (.describeTable (numericColNames df))
      explanation := some "Statistical summary of numeric columns"
      code := some "df.describe()"
      error := none }
  else if strContains ql "count" || strContains ql "number of rows" ||
      strContains ql "how many rows" then
    { success := true
      data := some (.text ("Total rows: " ++ formatWithCommas df.rows.length))
      explanation := some ("The dataset contains " ++ formatWithCommas df.rows.length ++ " rows")
      code := some "len(df)"
      error := none }
  else if strContains ql "columns" || strContains ql "column names" ||
      strContains ql "fields" then
    { success := true
      data := some (.names (colNames df))
      explanation := some "List of all columns in the dataset"
      code := some "df.columns.tolist()"
      error := none }
  else if strContains ql "missing" || strContains ql "null" ||
      strContains ql "nan" || strContains ql "empty" then
    let missingData := analyze_missing_data df
    { success := true
      data := some (if missingData.isEmpty then .text "No missing values found!"
                    else .missing missingData)
      explanation := some "Analysis of missing values in the dataset"
      code := some "df.isnull().sum()"
      error := none }
  else if strContains ql "correlation" || strContains ql "corr" then
    { success := true
      data := some (.corr (correlation_analysis df))
      explanation := some "Correlation matrix for numeric columns"
      code := some "df.corr()"
      error := none }
  else
    { success := false, data := none, explanation := none, code := none
      error := some "Query not recognized" }

/-- Does a response line survive the fallback filter of
`_extract_code_from_response` (`'df.' in line or any(keyword in line for
keyword in ['import', 'print', '='])`)? -/
def looksLikeCode (line : String) : Bool :=
  strContains line "df." || strContains line "import" ||
    strContains line "print" || strContains line "="

/-- Source method `QueryProcessor._extract_code_from_response`: the first (non-greedy)
match of ```` ```python\n(.*?)\n``` ````, stripped; when the fenced pair
is absent, fall back to joining the lines that look like code, and return
`none` when no line qualifies. -/
def extract_code_from_response (response : String) : Option String :=
  let fallback :=
    let codeLines := (splitLinesL response.data).filter
      (fun l => looksLikeCode (String.mk l))
    if codeLines.isEmpty then none
    else some (String.mk (joinLinesL codeLines))
  match findSplit ("```python\n".data) response.data with
  | some (_, rest) =>
    match findSplit ("\n```".data) rest with
    | some (code, _) => some (String.mk (trimChars code))
    | none => fallback
  | none => fallback

/-- A Python fault, split the way the source's handlers split it: `exc`
is an instance of `Exception` — what every `except Exception` clause of
`query_processor.py` catches — while `baseExc` is a `BaseException` that
is not an `Exception` (`SystemExit`, `KeyboardInterrupt`), which those
clauses do not catch, so it propagates through all three handlers.  (A
fragment can raise `SystemExit` because the builtins injection recorded
for claim C1 makes the name resolvable; faults that kill the interpreter
outright, such as `os._exit`, do not even propagate and sit outside any
value-level model.) -/
inductive PyFault where
  | exc (msg : String)
  | baseExc (msg : String)
deriving DecidableEq

/-- The observable outcome of `exec(code, safe_dict)` when it does not
raise: which of the conventional result variables the fragment bound in
the execution scope, and what evaluating the fragment's last line as an
expression yields (that evaluation can itself raise).  The Python-level
run of an arbitrary fragment is an external effect, so a value of this
type (wrapped in `Except PyFault` for an `exec`-time fault) is supplied
as an oracle; the lookup logic applied to it below is the source's. -/
structure ExecScope where
  vars : String → Option QueryData
  lastLine : Except PyFault QueryData

/-- Source method `QueryProcessor._execute_pandas_code` downstream of
the `exec` call: look up `result`, `output`, `answer` in order in the
scope; when none was set, evaluate the last line.  The method's
`except Exception` catches an `Exception`-level fault — from `exec`
itself or from the last-line `eval` — and re-raises it as
`Exception('Code execution error: ...')` carrying the underlying
message; a `BaseException` does not match the clause and propagates
unchanged. -/
def execute_pandas_code (run : Except PyFault ExecScope) :
    Except PyFault QueryData :=
  match run with
  | .error (.exc e) => .error (.exc ("Code execution error: " ++ e))
  | .error (.baseExc e) => .error (.baseExc e)
  | .ok scope =>
    match scope.vars "result" with
    | some v => .ok v
    | none =>
      match scope.vars "output" with
      | some v => .ok v
      | none =>
        match scope.vars "answer" with
        | some v => .ok v
        | none =>
          match scope.lastLine with
          | .ok v => .ok v
          | .error (.exc e) => .error (.exc ("Code execution error: " ++ e))
          | .error (.baseExc e) => .error (.baseExc e)

/-- Source method `QueryProcessor._process_ai_query`: the whole body
sits in a `try/except Exception` whose handler returns `{'success':
False, 'error': 'AI processing error: ...'}`; a `BaseException` is not
caught and propagates to `process_query`.  `response` is the outcome of
the OpenAI chat call (an external effect: `.error` when the call raises,
`.ok text` for the response text); `run` gives, per extracted code
fragment, the outcome of `exec`-ing it. -/
def process_ai_query (response : Except PyFault String)
    (run : String → Except PyFault ExecScope) : Except PyFault QueryResult :=
  match response with
  | .error (.exc e) =>
    .ok { success := false, data := none, explanation := none, code := none
          error := some ("AI processing error: " ++ e) }
  | .error (.baseExc e) => .error (.baseExc e)
  | .ok text =>
    match extract_code_from_response text with
    | some code =>
      match execute_pandas_code (run code) with
      | .ok v =>
        .ok { success := true, data := some v, explanation := some text
              code := some code, error := none }
      | .error (.exc e) =>
        .ok { success := false, data := none, explanation := none, code := none
              error := some ("AI processing error: " ++ e) }
      | .error (.baseExc e) => .error (.baseExc e)
    | none =>
      .ok { success := false, data := none, explanation := none, code := none
            error := some "Could not generate valid code from the query" }

/-- Source method `QueryProcessor.process_query`: try the pattern
matcher; on a miss, escalate to the AI path when
`Config.OPENAI_API_KEY` is set, else return the configuration failure.
The body sits in its own `try/except Exception` whose handler returns
`{'success': False, 'error': 'Error processing query: ...'}`; in the
embedding the only branch that can fault is the AI path, which already
converts `Exception`-level faults internally, so what reaches (and
passes) the outer clause is a `BaseException`, which it does not catch
either — the `.error` of the returned value is a fault propagating
uncaught to the caller. -/
def process_query (apiKey : Option String) (df : DataFrame) (query : String)
    (response : Except PyFault String)
    (run : String → Except PyFault ExecScope) : Except PyFault QueryResult :=
  let body : Except PyFault QueryResult :=
    let result := process_simple_query df query
    if result.success then .ok result
    else
      match apiKey with
      | some _ => process_ai_query response run
      | none =>
        .ok { success := false, data := none, explanation := none, code := none
              error := some "Complex queries require OpenAI API key. Please configure it in your environment." }
  match body with
  | .error (.exc e) =>
    .ok { success := false, data := none, explanation := none, code := none
          error := some ("Error processing query: " ++ e) }
  | other => other

/-- The keys the source explicitly places in `safe_dict`. -/
def safeDictNames : List String :=
  ["df", "pd", "len", "sum", "max", "min", "round"]

/-- CPython `exec` semantics: when the globals mapping lacks the key
`"__builtins__"`, the interpreter inserts the builtins module into it
before execution. -/
def execInjectsBuiltins : Bool :=
  !(safeDictNames.contains "__builtins__")

/-- A (partial) list of CPython builtins through which executed code
reaches capabilities outside any allow-list: dynamic import, file
opening, nested evaluation, attribute reflection. -/
def escapeBuiltins : List String :=
  ["__import__", "open", "eval", "exec", "getattr", "compile"]

/-- A global name is resolvable by the executed fragment when it is an
explicit `safe_dict` key or a builtin made visible by the injection. -/
def resolvableInExecSurface (name : String) : Bool :=
  safeDictNames.contains name ||
    (execInjectsBuiltins && escapeBuiltins.contains name)

/-- The execution surface the specification's words allow-list for the
Sandboxed Executor: the dataset reference plus length, sum, min, max and
rounding only (stated from the spec, for comparison with the source's
`safeDictNames`). -/
def specAllowedSurface : List String :=
  ["df", "len", "sum", "min", "max", "round"]

/-! ### Concrete fixtures used by witnesses and counterexamples -/

/-- A small concrete dataset: columns `id`, `age`, `salary` (numeric) and
`dept` (text), seven rows, with nulls in `age` and `dept`. -/
def dfW : DataFrame :=
  { cols := [⟨"id", true⟩, ⟨"age", true⟩, ⟨"salary", true⟩, ⟨"dept", false⟩]
    rows :=
      [[some (.num 1), some (.num 25), some (.num 50000), some (.str "sales")],
       [some (.num 2), none, some (.num 60000), some (.str "eng")],
       [some (.num 3), some (.num 35), some (.num 55000), none],
       [some (.num 4), some (.num 45), some (.num 52000), some (.str "eng")],
       [some (.num 5), none, some (.num 58000), none],
       [some (.num 6), some (.num 31), some (.num 61000), some (.str "sales")],
       [some (.num 7), some (.num 28), some (.num 49000), none]] }

/-- A dataset with a single numeric column. -/
def dfOneNum : DataFrame :=
  { cols := [⟨"x", true⟩]
    rows := [[some (.num 1)], [some (.num 2)], [some (.num 3)]] }

/-! ### Supporting lemmas -/

theorem isPrefixL_self_append (xs ys : List Char) :
    isPrefixL xs (xs ++ ys) = true := by
  induction xs with
  | nil => rfl
  | cons a as ih => simp [isPrefixL, ih]

theorem hasSubstr_of_isPrefixL {n h : List Char} (hp : isPrefixL n h = true) :
    hasSubstr n h = true := by
  cases h with
  | nil => simpa [hasSubstr] using hp
  | cons c rest => simp [hasSubstr, hp]

theorem hasSubstr_append_middle (n b : List Char) :
    ∀ a : List Char, hasSubstr n (a ++ (n ++ b)) = true := by
  intro a
  induction a with
  | nil => exact hasSubstr_of_isPrefixL (isPrefixL_self_append n b)
  | cons c as ih => simp [hasSubstr, ih]

/-- The middle string `b` occurs as a substring of `a ++ b ++ c`. -/
theorem strContains_middle (a b c : String) :
    strContains (a ++ b ++ c) b = true := by
  show hasSubstr b.data ((a.data ++ b.data) ++ c.data) = true
  rw [List.append_assoc]
  exact hasSubstr_append_middle b.data c.data a.data

/-- The suffix `b` occurs as a substring of `a ++ b`. -/
theorem strContains_append_right (a b : String) :
    strContains (a ++ b) b = true := by
  show hasSubstr b.data (a.data ++ b.data) = true
  have := hasSubstr_append_middle b.data [] a.data
  simpa using this

theorem firstDigitRun_eq_none {cs : List Char}
    (h : ∀ c ∈ cs, c.isDigit = false) : firstDigitRun cs = none := by
  induction cs with
  | nil => rfl
  | cons c rest ih =>
    have hc := h c (List.mem_cons_self c rest)
    simp only [firstDigitRun, hc]
    exact ih (fun d hd => h d (List.mem_cons_of_mem c hd))

/-- When the text contains no digit, `_extract_number` returns the default. -/
theorem extract_number_of_no_digit {text : String} (d : Nat)
    (h : ∀ c ∈ text.data, c.isDigit = false) : extract_number text d = d := by
  simp [extract_number, firstDigitRun_eq_none h]

/-- Each column position contributes its pair to `colNullCounts`. -/
theorem mem_colNullCounts (df : DataFrame) {i : Nat} (hi : i < df.cols.length) :
    (((df.cols.get? i).map Column.name).getD "", nullCount (cellsAt df i)) ∈
      colNullCounts df := by
  unfold colNullCounts
  exact List.mem_map.mpr ⟨i, List.mem_range.mpr hi, rfl⟩

/-- Every entry of `colNullCounts` is the pair of some column position. -/
theorem of_mem_colNullCounts {df : DataFrame} {x : String × Nat}
    (hx : x ∈ colNullCounts df) :
    ∃ i, i < df.cols.length ∧
      x = (((df.cols.get? i).map Column.name).getD "", nullCount (cellsAt df i)) := by
  unfold colNullCounts at hx
  obtain ⟨i, hi, hix⟩ := List.mem_map.mp hx
  exact ⟨i, List.mem_range.mp hi, hix.symm⟩

/-- On a numeric-or-null cell the `>=` mask entry does not raise and
computes `cellGe`. -/
theorem cellGeE_ok {cell : Option Val} (b : ℚ)
    (h : numericCell cell = true) : cellGeE cell b = .ok (cellGe cell b) := by
  match cell with
  | none => rfl
  | some (.num q) => rfl
  | some (.str s) => exact absurd h (by simp [numericCell])

/-- On a numeric-or-null cell the `<=` mask entry does not raise and
computes `cellLe`. -/
theorem cellLeE_ok {cell : Option Val} (b : ℚ)
    (h : numericCell cell = true) : cellLeE cell b = .ok (cellLe cell b) := by
  match cell with
  | none => rfl
  | some (.num q) => rfl
  | some (.str s) => exact absurd h (by simp [numericCell])

/-- When no mask entry raises, `filterE` is the plain filter by the
entries' values. -/
theorem filterE_ok (p : Row → Except String Bool) (q : Row → Bool) :
    ∀ rows : List Row, (∀ r ∈ rows, p r = .ok (q r)) →
      filterE p rows = .ok (rows.filter q) := by
  intro rows
  induction rows with
  | nil => intro _; rfl
  | cons r rs ih =>
    intro h
    have hr := h r (List.mem_cons_self r rs)
    have hrest := ih (fun x hx => h x (List.mem_cons_of_mem r hx))
    rw [List.filter_cons]
    simp only [filterE, hr, hrest]

/-- The condition loop skips conditions whose key resolves to no column,
so dropping them from the condition list changes nothing. -/
theorem applyCondsE_skip (df : DataFrame) :
    ∀ (conds : List (String × Cond)) (rows : List Row),
      applyCondsE df conds rows =
        applyCondsE df (conds.filter (fun c => (colIdx? df c.1).isSome)) rows := by
  intro conds
  induction conds with
  | nil => intro _; rfl
  | cons c cs ih =>
    intro rows
    cases h : colIdx? df c.1 with
    | none => simp [applyCondsE, h, List.filter_cons, ih]
    | some i =>
      simp only [applyCondsE, h, List.filter_cons, Option.isSome_some, if_true]
      cases hr : applyCond rows i c.2 with
      | ok rows2 => exact ih rows2
      | error e => rfl

/-- Splitting the condition loop over a concatenation: the second part
runs on the first part's rows, and a raise in the first part aborts. -/
theorem applyCondsE_append (df : DataFrame) :
    ∀ (c1 c2 : List (String × Cond)) (rows : List Row),
      applyCondsE df (c1 ++ c2) rows =
        match applyCondsE df c1 rows with
        | .ok rows1 => applyCondsE df c2 rows1
        | .error e => .error e := by
  intro c1
  induction c1 with
  | nil => intro c2 rows; rfl
  | cons c cs ih =>
    intro c2 rows
    cases hs : (match colIdx? df c.1 with
                | some i => applyCond rows i c.2
                | none => .ok rows) with
    | ok rows2 => simp [applyCondsE, hs, ih]
    | error e => simp [applyCondsE, hs]

/-- The condition loop only reads the receiver's columns, so replacing
its rows component changes nothing. -/
theorem applyCondsE_rows_irrel (df : DataFrame) (newRows : List Row) :
    ∀ (conds : List (String × Cond)) (rows : List Row),
      applyCondsE { df with rows := newRows } conds rows =
        applyCondsE df conds rows := by
  intro conds
  induction conds with
  | nil => intro _; rfl
  | cons c cs ih =>
    intro rows
    have hcol : colIdx? { df with rows := newRows } c.1 = colIdx? df c.1 := rfl
    cases hs : (match colIdx? df c.1 with
                | some i => applyCond rows i c.2
                | none => .ok rows) with
    | ok rows2 => simp [applyCondsE, hcol, hs, ih]
    | error e => simp [applyCondsE, hcol, hs]

/-! ### Claim theorems -/

/-- C4: for every query whose normalized text contains "top" together
with at least one of "rows", "records", "entries", the tier-1 result is a
success whose data has exactly `min N totalRows` rows, equal to the first
`N` rows of the dataset in original order, where `N` is the first integer
literal of the raw query text (`extract_number`), or 10 when the text has
no digit; the explanation mentions `N`. -/
theorem top_n_rows_matches (df : DataFrame) (query : String)
    (htop : strContains (normalizeQuery query) "top" = true)
    (hword : (strContains (normalizeQuery query) "rows" ||
              strContains (normalizeQuery query) "records" ||
              strContains (normalizeQuery query) "entries") = true) :
    (process_simple_query df query).success = true ∧
    (process_simple_query df query).data =
      some (.table (dfHead df (extract_number query 10))) ∧
    (dfHead df (extract_number query 10)).rows =
      df.rows.take (extract_number query 10) ∧
    (dfHead df (extract_number query 10)).rows.length =
      min (extract_number query 10) df.rows.length ∧
    (process_simple_query df query).explanation =
      some ("Showing top " ++ toString (extract_number query 10) ++
        " rows from the dataset") ∧
    strContains ("Showing top " ++ toString (extract_number query 10) ++
        " rows from the dataset") (toString (extract_number query 10)) = true ∧
    ((∀ c ∈ query.data, c.isDigit = false) → extract_number query 10 = 10) := by
  refine ⟨?_, ?_, rfl, List.length_take .., ?_, strContains_middle .., ?_⟩
  · simp [process_simple_query, htop, hword]
  · simp [process_simple_query, htop, hword]
  · simp [process_simple_query, htop, hword]
  · exact fun h => extract_number_of_no_digit 10 h

/-- Witness for C4 at the dataset `dfW` and the query
"show me the top 5 rows" (where the extracted `N` is 5). -/
theorem top_n_rows_matches_witness :
    (process_simple_query dfW "show me the top 5 rows").success = true ∧
    (process_simple_query dfW "show me the top 5 rows").data =
      some (.table (dfHead dfW (extract_number "show me the top 5 rows" 10))) ∧
    (dfHead dfW (extract_number "show me the top 5 rows" 10)).rows =
      dfW.rows.take (extract_number "show me the top 5 rows" 10) ∧
    (dfHead dfW (extract_number "show me the top 5 rows" 10)).rows.length =
      min (extract_number "show me the top 5 rows" 10) dfW.rows.length ∧
    (process_simple_query dfW "show me the top 5 rows").explanation =
      some ("Showing top " ++ toString (extract_number "show me the top 5 rows" 10) ++
        " rows from the dataset") ∧
    strContains ("Showing top " ++ toString (extract_number "show me the top 5 rows" 10) ++
        " rows from the dataset")
      (toString (extract_number "show me the top 5 rows" 10)) = true ∧
    ((∀ c ∈ ("show me the top 5 rows" : String).data, c.isDigit = false) →
      extract_number "show me the top 5 rows" 10 = 10) :=
  top_n_rows_matches dfW "show me the top 5 rows" (by decide) (by decide)

/-- C5: pattern-matcher resolution is first-match-wins in the declared
order, and the matcher is a pure function of the query and the rule
table, so repeated runs are identical by definitional determinism.  For
every query whose normalized text contains "summary" and which does not
match the higher-priority top-N rule, tier 1 resolves to the
overview/info rule — data is the column-info table and the descriptive
code string is `df.info()` — never to the statistics/describe rule. -/
theorem summary_resolves_to_info (df : DataFrame) (query : String)
    (hsum : strContains (normalizeQuery query) "summary" = true)
    (hnotop : (strContains (normalizeQuery query) "top" &&
               (strContains (normalizeQuery query) "rows" ||
                strContains (normalizeQuery query) "records" ||
                strContains (normalizeQuery query) "entries")) = false) :
    process_simple_query df query =
      { success := true
        data := some (.colInfo (get_column_info df))
        explanation := some "Dataset overview and column information"
        code := some "df.info()"
        error := none } ∧
    (process_simple_query df query).code ≠ some "df.describe()" := by
  have h : process_simple_query df query =
      { success := true
        data := some (.colInfo (get_column_info df))
        explanation := some "Dataset overview and column information"
        code := some "df.info()"
        error := none } := by
    simp [process_simple_query, hnotop, hsum]
  refine ⟨h, ?_⟩
  rw [h]
  simp

/-- Witness for C5 at `dfW` and the query "Give me a summary". -/
theorem summary_resolves_to_info_witness :
    process_simple_query dfW "Give me a summary" =
      { success := true
        data := some (.colInfo (get_column_info dfW))
        explanation := some "Dataset overview and column information"
        code := some "df.info()"
        error := none } ∧
    (process_simple_query dfW "Give me a summary").code ≠ some "df.describe()" :=
  summary_resolves_to_info dfW "Give me a summary" (by decide) (by decide)

/-- C9: when the tier-1 matcher misses and no AI credential is
configured, `process_query` returns the configuration-specific failure
(the spec's `BackendUnavailable` kind) — it is independent of the
synthesis and execution oracles (so synthesis is never attempted), it is
not a success, and it is not a crash (the function is total). -/
theorem no_key_miss_is_config_failure (df : DataFrame) (query : String)
    (response : Except PyFault String) (run : String → Except PyFault ExecScope)
    (hmiss : (process_simple_query df query).success = false) :
    process_query none df query response run =
      .ok { success := false, data := none, explanation := none, code := none
            error := some "Complex queries require OpenAI API key. Please configure it in your environment." } := by
  simp [process_query, hmiss]

/-- Witness for C9: the spec's scenario-4 query on `dfW`, with arbitrary
concrete oracles. -/
theorem no_key_miss_is_config_failure_witness :
    process_query none dfW
        "compute the median absolute deviation of salary grouped by department"
        (.ok "unused") (fun _ => .error (.exc "unused")) =
      .ok { success := false, data := none, explanation := none, code := none
            error := some "Complex queries require OpenAI API key. Please configure it in your environment." } :=
  no_key_miss_is_config_failure dfW
    "compute the median absolute deviation of salary grouped by department"
    (.ok "unused") (fun _ => .error (.exc "unused")) (by decide)

/-- C1: the execution surface of `_execute_pandas_code` is not restricted
to the dataset reference plus the pure primitives.  The source's
`safe_dict` explicitly binds the whole `pandas` module under `pd` (not on
the spec's allow-list, and a direct route to filesystem readers/writers
such as `pd.read_csv` / `DataFrame.to_csv`), and because `safe_dict` has
no `"__builtins__"` key, CPython's `exec` injects the full builtins
module, so the executed fragment resolves `__import__`, `open`, `eval`,
`exec`, `getattr`, `compile` — dynamic import of arbitrary capabilities,
filesystem, and (via `__import__('os')`/`subprocess`) process spawning.
This contradicts the function's own stated intent ("Safely execute
pandas code", "Create a safe execution environment"). -/
theorem exec_surface_exceeds_allow_list :
    safeDictNames.contains "pd" = true ∧
    specAllowedSurface.contains "pd" = false ∧
    execInjectsBuiltins = true ∧
    (∀ n ∈ escapeBuiltins,
      resolvableInExecSurface n = true ∧ specAllowedSurface.contains n = false) := by
  decide

/-- C2 counterexample: on a dataset with exactly one numeric column, the
query "correlation between x and y" (which triggers the correlation rule
and no earlier rule) produces a SUCCESS outcome — not a failure with an
`UnsupportedOperation` kind, as the claim states.  `process_query` is run
with no API key and arbitrary oracles (tier 1 answers before they are
consulted). -/
theorem correlation_one_numeric_is_success :
    (numericColNames dfOneNum).length = 1 ∧
    (process_simple_query dfOneNum "correlation between x and y").success = true ∧
    (process_simple_query dfOneNum "correlation between x and y").error = none ∧
    process_query none dfOneNum "correlation between x and y"
        (.error (.exc "")) (fun _ => .error (.exc "")) =
      .ok (process_simple_query dfOneNum "correlation between x and y") :=
  ⟨by decide, by decide, by decide, rfl⟩

/-- C2 amended: for every dataset with fewer than 2 numeric columns, a
query that triggers the correlation rule (normalized text contains
"correlation" or "corr" and matches none of the six earlier rules)
produces a SUCCESS outcome whose data is the degenerate correlation
table over the dataset's fewer-than-2 numeric columns; the pipeline
never crashes there (`DataFrame.corr` is total and the embedding is a
total function), and no `UnsupportedOperation` failure is reported. -/
theorem correlation_few_numeric_succeeds (df : DataFrame) (query : String)
    (h1 : (strContains (normalizeQuery query) "top" &&
           (strContains (normalizeQuery query) "rows" ||
            strContains (normalizeQuery query) "records" ||
            strContains (normalizeQuery query) "entries")) = false)
    (h2 : (strContains (normalizeQuery query) "info" ||
           strContains (normalizeQuery query) "information" ||
           strContains (normalizeQuery query) "overview" ||
           strContains (normalizeQuery query) "summary") = false)
    (h3 : (strContains (normalizeQuery query) "statistics" ||
           strContains (normalizeQuery query) "stats" ||
           strContains (normalizeQuery query) "describe" ||
           strContains (normalizeQuery query) "summary") = false)
    (h4 : (strContains (normalizeQuery query) "count" ||
           strContains (normalizeQuery query) "number of rows" ||
           strContains (normalizeQuery query) "how many rows") = false)
    (h5 : (strContains (normalizeQuery query) "columns" ||
           strContains (normalizeQuery query) "column names" ||
           strContains (normalizeQuery query) "fields") = false)
    (h6 : (strContains (normalizeQuery query) "missing" ||
           strContains (normalizeQuery query) "null" ||
           strContains (normalizeQuery query) "nan" ||
           strContains (normalizeQuery query) "empty") = false)
    (hcorr : (strContains (normalizeQuery query) "correlation" ||
              strContains (normalizeQuery query) "corr") = true)
    (hfew : (numericColNames df).length < 2) :
    (process_simple_query df query).success = true ∧
    (process_simple_query df query).data =
      some (.corr (correlation_analysis df)) ∧
    (process_simple_query df query).error = none ∧
    (correlation_analysis df).labels.length < 2 ∧
    (∀ (apiKey : Option String) (response : Except PyFault String)
        (run : String → Except PyFault ExecScope),
      process_query apiKey df query response run =
        .ok (process_simple_query df query)) := by
  have hq : process_simple_query df query =
      { success := true
        data := some (.corr (correlation_analysis df))
        explanation := some "Correlation matrix for numeric columns"
        code := some "df.corr()"
        error := none } := by
    simp [process_simple_query, h1, h2, h3, h4, h5, h6, hcorr]
  refine ⟨by rw [hq], by rw [hq], by rw [hq], hfew, ?_⟩
  intro apiKey response run
  simp [process_query, hq]

/-- Witness for the amended C2 at `dfOneNum` and the scenario-3 query. -/
theorem correlation_few_numeric_succeeds_witness :
    (process_simple_query dfOneNum "correlation between x and y").success = true ∧
    (process_simple_query dfOneNum "correlation between x and y").data =
      some (.corr (correlation_analysis dfOneNum)) ∧
    (process_simple_query dfOneNum "correlation between x and y").error = none ∧
    (correlation_analysis dfOneNum).labels.length < 2 ∧
    (∀ (apiKey : Option String) (response : Except PyFault String)
        (run : String → Except PyFault ExecScope),
      process_query apiKey dfOneNum "correlation between x and y" response run =
        .ok (process_simple_query dfOneNum "correlation between x and y")) :=
  correlation_few_numeric_succeeds dfOneNum "correlation between x and y"
    (by decide) (by decide) (by decide) (by decide) (by decide) (by decide)
    (by decide) (by decide)

/-- C6: `analyze_missing_data` returns an empty table if and only if no
column of the dataset contains a null; when non-empty, each row is the
pair of some column position, its missing count is that column's null
count (positive), its percentage is `(count / totalRows * 100).round(2)`,
and the rows are sorted in descending order of missing count. -/
theorem analyze_missing_data_report (df : DataFrame) :
    (analyze_missing_data df = [] ↔
      ∀ i < df.cols.length, nullCount (cellsAt df i) = 0) ∧
    (∀ r ∈ analyze_missing_data df, ∃ i, i < df.cols.length ∧
      r.column = ((df.cols.get? i).map Column.name).getD "" ∧
      r.count = nullCount (cellsAt df i) ∧ 0 < r.count ∧
      r.pct = round2 ((r.count : ℚ) / (df.rows.length : ℚ) * 100)) ∧
    List.Sorted (fun a b : MissingRow => b.count ≤ a.count)
      (analyze_missing_data df) := by
  have hempty_iff :
      ((colNullCounts df).filter (fun p => 0 < p.2)).isEmpty = true ↔
        ∀ i < df.cols.length, nullCount (cellsAt df i) = 0 := by
    rw [List.isEmpty_iff, List.filter_eq_nil_iff]
    constructor
    · intro h i hi
      have hmem := mem_colNullCounts df hi
      have := h _ hmem
      simpa using this
    · intro h x hx
      obtain ⟨i, hi, hxe⟩ := of_mem_colNullCounts hx
      subst hxe
      simp [h i hi]
  refine ⟨?_, ?_, ?_⟩
  · unfold analyze_missing_data
    by_cases hpos : ((colNullCounts df).filter (fun p => 0 < p.2)).isEmpty = true
    · rw [if_pos hpos]
      simpa using hempty_iff.mp hpos
    · rw [if_neg hpos]
      constructor
      · intro h
        exfalso
        have hlen := congrArg List.length h
        rw [List.length_insertionSort, List.length_map] at hlen
        exact hpos (by simpa [List.isEmpty_iff, List.length_eq_zero] using hlen)
      · intro h
        exact absurd (hempty_iff.mpr h) hpos
  · intro r hr
    unfold analyze_missing_data at hr
    by_cases hpos : ((colNullCounts df).filter (fun p => 0 < p.2)).isEmpty = true
    · rw [if_pos hpos] at hr
      exact absurd hr (List.not_mem_nil r)
    · rw [if_neg hpos] at hr
      rw [List.mem_insertionSort] at hr
      obtain ⟨p, hp, hpr⟩ := List.mem_map.mp hr
      obtain ⟨hpmem, hppos⟩ := List.mem_filter.mp hp
      obtain ⟨i, hi, hpe⟩ := of_mem_colNullCounts hpmem
      subst hpr
      refine ⟨i, hi, ?_, ?_, by simpa using hppos, rfl⟩
      · simpa using congrArg Prod.fst hpe
      · simpa using congrArg Prod.snd hpe
  · unfold analyze_missing_data
    by_cases hpos : ((colNullCounts df).filter (fun p => 0 < p.2)).isEmpty = true
    · rw [if_pos hpos]
      exact List.sorted_nil
    · rw [if_neg hpos]
      haveI : IsTotal MissingRow (fun a b => b.count ≤ a.count) :=
        ⟨fun a b => le_total b.count a.count⟩
      haveI : IsTrans MissingRow (fun a b => b.count ≤ a.count) :=
        ⟨fun a b c h1 h2 => le_trans h2 h1⟩
      exact List.sorted_insertionSort _ _

/-- C7 counterexample: the claim quantifies over every column present in
the dataset, but a range condition with numeric bounds on the text
column `dept` of `dfW` raises `TypeError` in pandas (`filtered_df[col]
>= a` is an ordering comparison between `str` and a number) — the call
does not return the rows satisfying `a ≤ v ≤ b`, it raises. -/
theorem filter_range_on_text_column_raises :
    colIdx? dfW "dept" = some 3 ∧
    filter_data dfW [("dept", Cond.range (some 26) (some 40))] =
      .error "TypeError: ordering comparison of str with numeric" :=
  ⟨by decide, rfl⟩

/-- C7 amended: for every numeric-dtype column (whose cells are numeric
or null, where no mask entry can raise) a `{min: a, max: b}` condition
keeps exactly the rows whose cell is a numeric value `v` with
`a ≤ v ≤ b` (a null matches no bound, as NaN comparisons are false);
on a column with text cells the range mask raises `TypeError` instead of
returning rows; and running `filter_data` with `c1` and then
`filter_data` with `c2` on column-disjoint condition sets equals one
`filter_data` call with the union (concatenation) of the two sets,
including equality of the raise behaviour. -/
theorem filter_data_range_numeric_and_composes :
    (∀ (df : DataFrame) (col : String) (i : Nat) (a b : ℚ),
      colIdx? df col = some i →
      (df.cols.get? i).map Column.numeric = some true →
      (∀ r ∈ df.rows, numericCell (cellAt r i) = true) →
      filter_data df [(col, .range (some a) (some b))] =
        .ok { df with rows := df.rows.filter (fun r =>
            cellGe (cellAt r i) a && cellLe (cellAt r i) b) }) ∧
    (∀ (df : DataFrame) (c1 c2 : List (String × Cond)),
      (∀ x ∈ c1, ∀ y ∈ c2, x.1 ≠ y.1) →
      filter_data df (c1 ++ c2) =
        match filter_data df c1 with
        | .ok d1 => filter_data d1 c2
        | .error e => .error e) := by
  constructor
  · intro df col i a b hcol hdtype hcells
    have h1 : filterE (fun r => cellGeE (cellAt r i) a) df.rows =
        .ok (df.rows.filter (fun r => cellGe (cellAt r i) a)) :=
      filterE_ok _ _ df.rows (fun r hr => cellGeE_ok a (hcells r hr))
    have h2 : filterE (fun r => cellLeE (cellAt r i) b)
        (df.rows.filter (fun r => cellGe (cellAt r i) a)) =
        .ok ((df.rows.filter (fun r => cellGe (cellAt r i) a)).filter
          (fun r => cellLe (cellAt r i) b)) :=
      filterE_ok _ _ _
        (fun r hr => cellLeE_ok b (hcells r (List.mem_of_mem_filter hr)))
    have happ : applyCond df.rows i (Cond.range (some a) (some b)) =
        .ok ((df.rows.filter (fun r => cellGe (cellAt r i) a)).filter
          (fun r => cellLe (cellAt r i) b)) := by
      simp [applyCond, h1, h2]
    have hmain : filter_data df [(col, Cond.range (some a) (some b))] =
        .ok { df with rows := ((df.rows.filter (fun r => cellGe (cellAt r i) a)).filter
          (fun r => cellLe (cellAt r i) b)) } := by
      simp [filter_data, applyCondsE, hcol, happ]
    rw [hmain, List.filter_filter]
    exact congrArg (fun rs => Except.ok { df with rows := rs })
      (List.filter_congr (fun x _ => Bool.and_comm _ _))
  · intro df c1 c2 hdisj
    cases h1 : applyCondsE df c1 df.rows with
    | error e => simp [filter_data, applyCondsE_append, h1]
    | ok rows1 => simp [filter_data, applyCondsE_append, h1, applyCondsE_rows_irrel]

/-- Witness for the amended C7: the range filter on the numeric `age`
column of `dfW` (position 1), and a disjoint composition over `age` and
`salary`. -/
theorem filter_data_range_numeric_and_composes_witness :
    (filter_data dfW [("age", .range (some 26) (some 40))] =
      .ok { dfW with rows := dfW.rows.filter (fun r =>
          cellGe (cellAt r 1) 26 && cellLe (cellAt r 1) 40) }) ∧
    (filter_data dfW
        ([("age", .range (some 26) (some 40))] ++
         [("salary", .range (some 50000) (some 60000))]) =
      match filter_data dfW [("age", .range (some 26) (some 40))] with
      | .ok d1 => filter_data d1 [("salary", .range (some 50000) (some 60000))]
      | .error e => .error e) :=
  ⟨filter_data_range_numeric_and_composes.1 dfW "age" 1 26 40
     (by decide) (by decide) (by decide),
   filter_data_range_numeric_and_composes.2 dfW
     [("age", .range (some 26) (some 40))]
     [("salary", .range (some 50000) (some 60000))]
     (by decide)⟩

/-- C8: every `DataProcessor` operation is side-effect-free on the
receiver: none of the five methods contains an assignment to `self.df`
(or any other attribute), so each state-passing embedding returns the
receiver state unchanged, and `filter_data` / `group_analysis` return a
newly built table while `self.df` is untouched. -/
theorem data_processor_ops_frame (s : DataProcessorState)
    (conds : List (String × Cond)) (g a : String) (f : AggFn) :
    (get_column_info_op s).2 = s ∧
    (analyze_missing_data_op s).2 = s ∧
    (correlation_analysis_op s).2 = s ∧
    (filter_data_op s conds).2 = s ∧
    (group_analysis_op s g a f).2 = s ∧
    (filter_data_op s conds).1 = filter_data s.df conds ∧
    (filter_data_op s conds).2.df = s.df ∧
    (group_analysis_op s g a f).2.df = s.df :=
  ⟨rfl, rfl, rfl, rfl, rfl, rfl, rfl, rfl⟩

/-- C10: `filter_data` silently ignores conditions whose key is not a
column of the dataframe (the `if column in filtered_df.columns` guard):
the call is total — it never raises for an unknown column — and its
result equals `filter_data` on the conditions with every unknown-column
entry removed. -/
theorem filter_data_ignores_unknown_columns (df : DataFrame)
    (conds : List (String × Cond)) :
    filter_data df conds =
      filter_data df (conds.filter (fun c => (colIdx? df c.1).isSome)) := by
  unfold filter_data
  rw [applyCondsE_skip]

/-- Witness for C6 at `dfW` (whose `age` and `dept` columns contain
nulls). -/
theorem analyze_missing_data_report_witness :
    (analyze_missing_data dfW = [] ↔
      ∀ i < dfW.cols.length, nullCount (cellsAt dfW i) = 0) ∧
    (∀ r ∈ analyze_missing_data dfW, ∃ i, i < dfW.cols.length ∧
      r.column = ((dfW.cols.get? i).map Column.name).getD "" ∧
      r.count = nullCount (cellsAt dfW i) ∧ 0 < r.count ∧
      r.pct = round2 ((r.count : ℚ) / (dfW.rows.length : ℚ) * 100)) ∧
    List.Sorted (fun a b : MissingRow => b.count ≤ a.count)
      (analyze_missing_data dfW) :=
  analyze_missing_data_report dfW
